import Mathlib

/-!
Shallow embedding of the statistics exercises in the `Learning-git`
repository.

The repository consists of near-duplicate command-line scripts that load a
numeric dataset, compute descriptive statistics and persist them.  The
primary variant embedded here is
`exercises/github-actions/project/data_analyzer.py` (class `DataAnalyzer`);
the variants in `exercises/docker-intro/project/data_analyzer.py` and
`exercises/02-branching/project/data_processor.py` are embedded where they
differ.

Python floats are modelled as exact rationals (`ℚ`); this is the standard
idealisation, and it is particularly close here because `statistics.mean`,
`statistics.median` and `statistics.variance` compute with exact fractions
internally.  `statistics.stdev` (a real square root) is handled through an
exact integer-square-root construction, bridged to `Real.sqrt` below.
-/

-- Batteries marks the arithmetic on `Rat` irreducible (to keep goals
-- tidy); re-allow unfolding so that concrete rational computations can be
-- settled by `decide`.
attribute [local semireducible] Rat.mul Rat.inv Rat.add Rat.sub
  Rat.ofScientific

namespace DA

/-- The floor of a rational, written out so that it evaluates by kernel
reduction (`⌊·⌋` goes through the `FloorRing` class and does not). -/
def ratFloor (x : ℚ) : ℤ := x.num / x.den

/-- Round-half-to-even of a rational to an integer: the embedding of
Python's `round` tie-breaking (banker's rounding) on exact values.
A fractional part below `1/2` rounds down, above `1/2` rounds up, and an
exact tie goes to the even neighbour. -/
def rhe (x : ℚ) : ℤ :=
  if x - ratFloor x < 1/2 then ratFloor x
  else if 1/2 < x - ratFloor x then ratFloor x + 1
  else if ratFloor x % 2 = 0 then ratFloor x else ratFloor x + 1

/-- Embedding of Python's `round(x, p)` for `p ≥ 0` on exact rationals:
scale by `10^p`, round half-to-even to an integer, scale back. -/
def roundTo (p : ℕ) (x : ℚ) : ℚ := (rhe (x * 10 ^ p) : ℚ) / 10 ^ p

/-- `x` is a decimal fraction with at most `p` fractional digits
(exactly the rationals that a `p`-digit decimal literal can denote). -/
def IsDec (p : ℕ) (x : ℚ) : Prop := ∃ k : ℤ, x = (k : ℚ) / 10 ^ p

/-- Embedding of Python `sorted(data)`: the ascending sort of the dataset
(only the resulting ordered permutation matters, not the algorithm). -/
def sortQ (l : List ℚ) : List ℚ := List.insertionSort (· ≤ ·) l

/-- Embedding of the percentile index expression
`max(0, min(int(n * p / 100), n - 1))` from
`calculate_advanced_stats` (github-actions variant).  For the nonnegative
operands here Python's `int` truncation of `n * p / 100` is the floor,
i.e. integer division.  The docker-intro variant computes
`sorted_data[min(int(n * p / 100), n - 1)]` without the outer `max`,
which agrees because the inner value is already nonnegative. -/
def percentileIndex (n p : ℕ) : ℕ :=
  (max 0 (min (((n * p : ℕ) : ℤ) / 100) ((n : ℤ) - 1))).toNat

/-- The rounded value reported as `"p<p>"`: the element of the
ascending-sorted data at `percentileIndex`, rounded to the configured
precision (`round(sorted_data[index], precision)`). -/
def percentileValue (precision : ℕ) (data : List ℚ) (p : ℕ) : ℚ :=
  roundTo precision ((sortQ data).getD (percentileIndex data.length p) 0)

/-- The reported `"iqr"`: `round(q3 - q1, precision)` where `q1`, `q3` are
the already-rounded reported `"p25"` and `"p75"` values. -/
def iqrValue (precision : ℕ) (data : List ℚ) : ℚ :=
  roundTo precision
    (percentileValue precision data 75 - percentileValue precision data 25)

/-- The outlier list of `calculate_advanced_stats`:
`[x for x in data if x < lower_bound or x > upper_bound]` with
`lower_bound = q1 - 1.5 * iqr` and `upper_bound = q3 + 1.5 * iqr`. -/
def outliersOf (precision : ℕ) (data : List ℚ) : List ℚ :=
  data.filter (fun x =>
    decide (x < percentileValue precision data 25 -
        3/2 * iqrValue precision data) ||
    decide (percentileValue precision data 75 +
        3/2 * iqrValue precision data < x))

/-- Embedding of `DataAnalyzer.calculate_advanced_stats` (github-actions
variant; the docker-intro variant is identical up to the equivalent index
expression noted at `percentileIndex`).  Datasets with fewer than four
points yield the empty report; otherwise the report lists the five
nearest-rank percentiles, the IQR, and the IQR-fence outlier count and
percentage, in insertion order. -/
def calculate_advanced_stats (precision : ℕ) (data : List ℚ) :
    List (String × ℚ) :=
  if data.length < 4 then []
  else
    [("p25", percentileValue precision data 25),
     ("p50", percentileValue precision data 50),
     ("p75", percentileValue precision data 75),
     ("p90", percentileValue precision data 90),
     ("p95", percentileValue precision data 95),
     ("iqr", iqrValue precision data),
     ("outlier_count", ((outliersOf precision data).length : ℚ)),
     ("outlier_percentage",
       roundTo precision
         (((outliersOf precision data).length : ℚ) / data.length * 100))]

/-- Lookup of a metric in a report (Python `results[key]` /
`key in results`, reports being insertion-ordered dicts with unique
keys). -/
def getVal {α : Type} (r : List (String × α)) (k : String) : Option α :=
  match r with
  | [] => none
  | (k', v) :: r => if k = k' then some v else getVal r k

/-- Concrete dataset for witnesses of the advanced-statistics theorems. -/
def wdata : List ℚ := [1, 2, 3, 4]

/-- `⌊√m⌋` of a nonnegative rational `m = a / b`, computed exactly with
the integer square root: `√(a/b) = √(a·b)/b`, so the floor is
`Nat.sqrt (a·b) / b`. -/
def sqrtFloorQ (m : ℚ) : ℕ := Nat.sqrt (m.num.toNat * m.den) / m.den

/-- Round-half-to-even of `√m` for `m ≥ 0`, computed exactly: the
fractional part of the root is located by comparing `m` with
`(⌊√m⌋ + 1/2)²`. -/
def rheSqrt (m : ℚ) : ℤ :=
  if m < ((sqrtFloorQ m : ℚ) + 1/2) ^ 2 then sqrtFloorQ m
  else if ((sqrtFloorQ m : ℚ) + 1/2) ^ 2 < m then sqrtFloorQ m + 1
  else if (sqrtFloorQ m : ℤ) % 2 = 0 then (sqrtFloorQ m : ℤ)
  else sqrtFloorQ m + 1

/-- Embedding of `round(statistics.stdev(data), p)` for the sample
variance `v`: `round(√v, p) = rhe(√v · 10^p)/10^p = rheSqrt(v · 10^(2p))/10^p`,
computed exactly (see `sqrtRound_eq` for the bridge to `Real.sqrt`). -/
def sqrtRound (p : ℕ) (v : ℚ) : ℚ := (rheSqrt (v * 10 ^ (2 * p)) : ℚ) / 10 ^ p

/-- Mirror of `rhe` on the reals: what rounding half-to-even means for an
exact (possibly irrational) value such as `statistics.stdev`. -/
noncomputable def rheR (x : ℝ) : ℤ :=
  if x - ⌊x⌋ < 1/2 then ⌊x⌋
  else if 1/2 < x - ⌊x⌋ then ⌊x⌋ + 1
  else if ⌊x⌋ % 2 = 0 then ⌊x⌋ else ⌊x⌋ + 1

/-- Python `statistics.mean(data)`: exact arithmetic mean. -/
def mean (data : List ℚ) : ℚ := data.sum / data.length

/-- Python `statistics.median(data)`: middle element of the sorted data
for odd length, average of the two middle elements for even length. -/
def median (data : List ℚ) : ℚ :=
  if data.length % 2 = 1 then (sortQ data).getD (data.length / 2) 0
  else ((sortQ data).getD (data.length / 2 - 1) 0 +
    (sortQ data).getD (data.length / 2) 0) / 2

/-- Python `min(data)` (junk value 0 on empty input; all callers guard
non-emptiness). -/
def listMin : List ℚ → ℚ
  | [] => 0
  | x :: xs => xs.foldl min x

/-- Python `max(data)`. -/
def listMax : List ℚ → ℚ
  | [] => 0
  | x :: xs => xs.foldl max x

/-- Python `statistics.variance(data)`: the sample variance with
Bessel's correction, `Σ (x − mean)² / (n − 1)` (the Python library also
computes this with exact fractions). -/
def sampleVariance (data : List ℚ) : ℚ :=
  (data.map (fun x => (x - mean data) ^ 2)).sum / ((data.length : ℚ) - 1)

/-- Embedding of `DataAnalyzer.calculate_basic_stats` (github-actions
variant; the docker-intro variant is identical): for nonempty data the
report lists count, mean, median, min, max — every value except the
count rounded to the configured precision — and appends `std_dev`
(`round(statistics.stdev, p)`) and `variance`
(`round(statistics.variance, p)`) exactly when the count exceeds one. -/
def calculate_basic_stats (precision : ℕ) (data : List ℚ) :
    List (String × ℚ) :=
  if data = [] then []
  else
    [("count", (data.length : ℚ)),
     ("mean", roundTo precision (mean data)),
     ("median", roundTo precision (median data)),
     ("min", roundTo precision (listMin data)),
     ("max", roundTo precision (listMax data))] ++
    (if 1 < data.length then
      [("std_dev", sqrtRound precision (sampleVariance data)),
       ("variance", roundTo precision (sampleVariance data))]
    else [])

/-- Embedding of `calculate_statistics` from
`exercises/02-branching/project/data_processor.py`: a zero-filled report
for empty input; otherwise count, mean, median, std_dev, min, max with
no rounding and no `variance` key, and `std_dev` present for every
dataset (`statistics.stdev(data) if len(data) > 1 else 0.0`).  Values
live in `ℝ` because this variant does not round its exact square root. -/
noncomputable def calculate_statistics (data : List ℚ) :
    List (String × ℝ) :=
  if data = [] then
    [("count", 0), ("mean", 0), ("median", 0), ("std_dev", 0),
     ("min", 0), ("max", 0)]
  else
    [("count", (data.length : ℝ)),
     ("mean", ((mean data : ℚ) : ℝ)),
     ("median", ((median data : ℚ) : ℝ)),
     ("std_dev", if 1 < data.length then
        Real.sqrt ((sampleVariance data : ℚ) : ℝ) else 0),
     ("min", ((listMin data : ℚ) : ℝ)),
     ("max", ((listMax data : ℚ) : ℝ))]

/-- Concrete dataset for the witness of the basic-statistics theorem. -/
def wdata2 : List ℚ := [1, 2]

/-- A JSON value (the subset relevant to the analyzer's data files). -/
inductive JVal where
  | num (q : ℚ)
  | jbool (b : Bool)
  | jstr (s : String)
  | jnull
  | arr (elems : List JVal)
  | obj (fields : List (String × JVal))

/-- What the analyzer finds at the `--data` path. -/
inductive FileInput where
  | noPath
  | missing
  | malformed
  | parsed (v : JVal)

/-- `float(x) for x in data if isinstance(x, (int, float))`: JSON
numbers are kept; JSON booleans are ALSO kept, because Python's `bool`
is a subtype of `int`, so `true`/`false` load as `1.0`/`0.0`; every
other entry is dropped by the `isinstance` test. -/
def elemToNum : JVal → Option ℚ
  | .num q => some q
  | .jbool b => some (if b then 1 else 0)
  | _ => none

/-- The hard-coded 50-point sample dataset of the github-actions
`load_dataset`. -/
def sample_data : List ℚ :=
  [23.5, 18.2, 31.7, 45.1, 29.8, 16.4, 38.9, 52.3, 27.6, 41.2,
   19.8, 34.5, 28.1, 47.6, 22.9, 36.7, 33.4, 26.8, 42.1, 30.5,
   15.3, 48.7, 35.9, 21.4, 39.6, 25.1, 44.8, 32.3, 17.9, 46.2,
   12.8, 55.1, 37.4, 24.7, 43.9, 18.6, 50.2, 29.3, 35.8, 41.7,
   14.2, 49.5, 33.7, 26.4, 40.8, 20.1, 45.6, 31.9, 38.3, 42.7]

/-- The docker-intro variant's sample dataset: the first four rows (40
points) of the same table. -/
def docker_sample_data : List ℚ := sample_data.take 40

/-- Embedding of `DataAnalyzer.load_dataset` (github-actions variant).
Result: the loaded dataset paired with whether the error message
("Error loading data ..., using sample data") was printed.  No path or
a missing file silently yields the sample data (the guard
`if file_path and Path(file_path).exists()` fails, printing nothing); a
JSON parse error, or the `TypeError` from iterating a non-iterable
parsed value, is caught, printing the message and falling back to the
sample data; a parsed array keeps its numeric/boolean entries; a parsed
string or object is iterable but yields only strings, so the result is
empty, with no message. -/
def load_dataset : FileInput → List ℚ × Bool
  | .noPath => (sample_data, false)
  | .missing => (sample_data, false)
  | .malformed => (sample_data, true)
  | .parsed (.arr l) => (l.filterMap elemToNum, false)
  | .parsed (.jstr _) => ([], false)
  | .parsed (.obj _) => ([], false)
  | .parsed _ => (sample_data, true)

/-- Outcome of the docker-intro variant's `load_dataset`, which has no
`try`/`except`: exceptions escape and kill the process. -/
inductive DockerLoad where
  | ok (data : List ℚ)
  | fatal (exc : String)
deriving DecidableEq

/-- Embedding of `load_dataset` from the docker-intro variant: same
conversion, but a parse error or non-iterable JSON value raises
uncaught. -/
def docker_load_dataset : FileInput → DockerLoad
  | .noPath => .ok docker_sample_data
  | .missing => .ok docker_sample_data
  | .malformed => .fatal "json.JSONDecodeError"
  | .parsed (.arr l) => .ok (l.filterMap elemToNum)
  | .parsed (.jstr _) => .ok []
  | .parsed (.obj _) => .ok []
  | .parsed _ => .fatal "TypeError"

/-- The JSON numeric literal (mantissa of `m · 10^(−p)`) for a report
value with `p` fractional digits: defined exactly when the value is a
`p`-digit decimal fraction.  Every value the analyzer reports is one;
this models `json.dump` writing each float as a finite decimal literal
via `repr`. -/
def writeNum (p : ℕ) (x : ℚ) : Option ℤ :=
  if (x * 10 ^ p).den = 1 then some (x * 10 ^ p).num else none

/-- Reading the JSON numeric literal `m · 10^(−p)` back (`json.load`). -/
def readNum (p : ℕ) (m : ℤ) : ℚ := (m : ℚ) / 10 ^ p

/-- The serialized form of a report: each value as its JSON literal
(defined when every value is; comes out `some` for every report the
analyzer produces, see `writeJson_ok`). -/
def writeJson (p : ℕ) : List (String × ℚ) → Option (List (String × ℤ))
  | [] => some []
  | kv :: rest => do
    let m ← writeNum p kv.2
    let w ← writeJson p rest
    some ((kv.1, m) :: w)

/-- Parsing a serialized report back into a value mapping. -/
def readJson (p : ℕ) (f : List (String × ℤ)) : List (String × ℚ) :=
  f.map (fun kv => (kv.1, readNum p kv.2))

/-- The full configuration dictionary produced by
`DataAnalyzer.load_default_config` (every key present). -/
structure Config where
  precision : ℕ
  output_format : String
  analysis_mode : String
  include_outliers : Bool
  output_dir : String
deriving DecidableEq

/-- The process environment as read by `load_default_config`.
`PRECISION` is modelled already parsed to a number (`int()` on an
unparsable string would raise before anything under claim happens). -/
structure Env where
  PRECISION : Option ℕ
  OUTPUT_FORMAT : Option String
  ANALYSIS_MODE : Option String
  INCLUDE_OUTLIERS : Option String
  OUTPUT_DIR : Option String
deriving DecidableEq

/-- Python `str.lower()`, characterwise (ASCII-faithful; written out so
that it evaluates, unlike `String.toLower`). -/
def strToLower (s : String) : String := ⟨s.data.map Char.toLower⟩

/-- Embedding of `DataAnalyzer.load_default_config`: built-in defaults
overridden by environment variables where set. -/
def load_default_config (env : Env) : Config :=
  ⟨env.PRECISION.getD 2,
   env.OUTPUT_FORMAT.getD "json",
   env.ANALYSIS_MODE.getD "standard",
   strToLower (env.INCLUDE_OUTLIERS.getD "true") == "true",
   env.OUTPUT_DIR.getD "./output"⟩

/-- A Python `dict` configuration in which keys may be missing — what
`DataAnalyzer.__init__` actually stores when a partial override dict is
passed. -/
structure ConfigDict where
  precision : Option ℕ
  output_format : Option String
  analysis_mode : Option String
  include_outliers : Option Bool
  output_dir : Option String
deriving DecidableEq

/-- A complete configuration viewed as a dict (every key present). -/
def Config.toDict (c : Config) : ConfigDict :=
  ⟨some c.precision, some c.output_format, some c.analysis_mode,
   some c.include_outliers, some c.output_dir⟩

/-- The parsed command line of the github-actions `main`
(`--mode`, `--output-format`, `--precision`); `argparse` restricts
`--precision` to 0–10 and the string choices to their listed values. -/
structure Args where
  mode : Option String
  output_format : Option String
  precision : Option ℕ
deriving DecidableEq

/-- `config_overrides` as built in `main`: only the CLI-given options. -/
def config_overrides (args : Args) : ConfigDict :=
  ⟨args.precision, args.output_format, args.mode, none, none⟩

/-- Python dict truthiness: `config_overrides if config_overrides else
None` passes `None` exactly when the dict is empty. -/
def ConfigDict.isEmptyDict (d : ConfigDict) : Bool :=
  d.precision.isNone && d.output_format.isNone &&
    d.analysis_mode.isNone && d.include_outliers.isNone &&
    d.output_dir.isNone

/-- The configuration the analyzer actually runs with:
`DataAnalyzer(config_overrides if config_overrides else None)` composed
with `self.config = config or self.load_default_config()` — a non-empty
override dict REPLACES the whole configuration; only an empty one falls
back to defaults-plus-environment. -/
def effective_config (env : Env) (args : Args) : ConfigDict :=
  if (config_overrides args).isEmptyDict then
    (load_default_config env).toDict
  else config_overrides args

/-- Modelled from the spec (section 4.2): the three-tier per-option
resolution the claim describes — CLI flag over environment variable
over built-in default, option by option.  Stated for comparison with
the code's `effective_config`. -/
def spec_resolved_config (env : Env) (args : Args) : Config :=
  ⟨args.precision.getD (env.PRECISION.getD 2),
   args.output_format.getD (env.OUTPUT_FORMAT.getD "json"),
   args.mode.getD (env.ANALYSIS_MODE.getD "standard"),
   strToLower (env.INCLUDE_OUTLIERS.getD "true") == "true",
   env.OUTPUT_DIR.getD "./output"⟩

/-- Outcome of `DataAnalyzer.save_results` (github-actions variant).
Only `wroteJson`/`wroteCsv` denote that a file was written. -/
inductive SaveOutcome where
  | noResults
  | wroteJson (file : String) (content : Option (List (String × ℤ)))
  | wroteCsv (file : String) (rows : List (String × ℚ))
  | unsupported (fmt : String)
deriving DecidableEq

/-- Embedding of `DataAnalyzer.save_results` (github-actions variant)
over a complete configuration: empty results are only reported
("No results to save"); JSON and CSV branches write their file; any
other format prints "Unsupported output format" and returns without
writing. -/
def save_results (c : Config) (results : List (String × ℚ)) :
    SaveOutcome :=
  if results = [] then .noResults
  else if c.output_format = "json" then
    .wroteJson (c.output_dir ++ "/analysis_results.json")
      (writeJson c.precision results)
  else if c.output_format = "csv" then
    .wroteCsv (c.output_dir ++ "/analysis_results.csv") results
  else .unsupported c.output_format

/-- Outcome of the docker-intro variant's `save_results`. -/
inductive DockerSave where
  | wroteJson (file : String) (content : Option (List (String × ℤ)))
  | wroteCsv (file : String) (rows : List (String × ℚ))
  | fatal (exc : String)
deriving DecidableEq

/-- Embedding of `save_results` from the docker-intro variant: no
empty-results check and no `else` branch — for any format other than
json/csv the trailing `print(f"Results saved to {output_file}")` hits
the never-assigned `output_file` and raises `UnboundLocalError`, which
nothing in that variant catches. -/
def docker_save_results (c : Config) (results : List (String × ℚ)) :
    DockerSave :=
  if c.output_format = "json" then
    .wroteJson (c.output_dir ++ "/analysis_results.json")
      (writeJson c.precision results)
  else if c.output_format = "csv" then
    .wroteCsv (c.output_dir ++ "/analysis_results.csv") results
  else .fatal "UnboundLocalError"

/-- The results mapping assembled by `DataAnalyzer.analyze` over a
complete configuration: basic statistics, then advanced statistics when
the analysis mode is `detailed` or `advanced`.  (`self.results` starts
empty on a fresh instance and the two key sets are disjoint, so the
dict equals this concatenation.) -/
def analyze_results (c : Config) (input : FileInput) :
    List (String × ℚ) :=
  calculate_basic_stats c.precision (load_dataset input).1 ++
    (if c.analysis_mode = "detailed" ∨ c.analysis_mode = "advanced" then
      calculate_advanced_stats c.precision (load_dataset input).1
    else [])

/-- `analyze` displays the results and then saves them; the pair of the
returned results and the save outcome. -/
def analyze_run (c : Config) (input : FileInput) :
    List (String × ℚ) × SaveOutcome :=
  (analyze_results c input, save_results c (analyze_results c input))

/-- `main`'s exit code for a completed run: 0 when the results mapping
is non-empty, 1 otherwise. -/
def exit_code (c : Config) (input : FileInput) : ℕ :=
  if analyze_results c input = [] then 1 else 0

instance {ε α : Type} [DecidableEq ε] [DecidableEq α] :
    DecidableEq (Except ε α) := fun a b =>
  match a, b with
  | .error e1, .error e2 =>
    if h : e1 = e2 then isTrue (by rw [h])
    else isFalse (by intro hc; injection hc; exact h (by assumption))
  | .error e1, .ok a2 => isFalse (fun hc => Except.noConfusion hc)
  | .ok a1, .error e2 => isFalse (fun hc => Except.noConfusion hc)
  | .ok a1, .ok a2 =>
    if h : a1 = a2 then isTrue (by rw [h])
    else isFalse (by intro hc; injection hc; exact h (by assumption))

/-- `self.config[key]`: a missing key raises `KeyError(key)`, modelled
as `Except.error key` (nothing catches it below `main`). -/
def getKey {α : Type} (v : Option α) (key : String) : Except String α :=
  match v with
  | some x => Except.ok x
  | none => Except.error key

/-- `calculate_basic_stats` over a possibly-partial configuration dict:
the empty-data early return happens before `self.config["precision"]`
is read. -/
def calculate_basic_statsE (d : ConfigDict) (data : List ℚ) :
    Except String (List (String × ℚ)) :=
  if data = [] then .ok [] else do
    let p ← getKey d.precision "precision"
    .ok (calculate_basic_stats p data)

/-- `calculate_advanced_stats` over a possibly-partial configuration
dict: the small-dataset early return happens before `precision` is
read. -/
def calculate_advanced_statsE (d : ConfigDict) (data : List ℚ) :
    Except String (List (String × ℚ)) :=
  if data.length < 4 then .ok [] else do
    let p ← getKey d.precision "precision"
    .ok (calculate_advanced_stats p data)

/-- `save_results` over a possibly-partial configuration dict, reading
keys in source order: `output_dir`, then `output_format`, then (for the
JSON `indent`) `precision`. -/
def save_resultsE (d : ConfigDict) (results : List (String × ℚ)) :
    Except String SaveOutcome :=
  if results = [] then .ok .noResults else do
    let dir ← getKey d.output_dir "output_dir"
    let fmt ← getKey d.output_format "output_format"
    if fmt = "json" then do
      let p ← getKey d.precision "precision"
      .ok (.wroteJson (dir ++ "/analysis_results.json")
        (writeJson p results))
    else if fmt = "csv" then
      .ok (.wroteCsv (dir ++ "/analysis_results.csv") results)
    else .ok (.unsupported fmt)

/-- The `analyze` call chain over a possibly-partial configuration
dict; each `self.config[...]` access may raise `KeyError`, which
propagates to `main`'s `except`.  The accesses happen in source order:
`calculate_basic_stats` reads `precision`, then `analyze` reads
`analysis_mode`, then the save step reads its keys. -/
def analyzeE (d : ConfigDict) (input : FileInput) :
    Except String (List (String × ℚ) × SaveOutcome) := do
  let data := (load_dataset input).1
  let basic ← calculate_basic_statsE d data
  let mode ← getKey d.analysis_mode "analysis_mode"
  let adv ← if mode = "detailed" ∨ mode = "advanced" then
      calculate_advanced_statsE d data
    else .ok []
  let results := basic ++ adv
  let save ← save_resultsE d results
  .ok (results, save)

/-- The whole github-actions `main` run (after argument parsing):
configuration resolution followed by `analyze`. -/
def main_run (env : Env) (args : Args) (input : FileInput) :
    Except String (List (String × ℚ) × SaveOutcome) :=
  analyzeE (effective_config env args) input

/-- `main`'s exit code: 1 when `analyze` raised (the `except` branch
prints the error), otherwise 0 for non-empty results and 1 for empty
ones. -/
def main_exit (env : Env) (args : Args) (input : FileInput) : ℕ :=
  match main_run env args input with
  | .ok (results, _) => if results = [] then 1 else 0
  | .error _ => 1

/-- An empty environment (no variables set). -/
def env0 : Env := ⟨none, none, none, none, none⟩

/-- The command line `--mode advanced` and nothing else. -/
def args_mode_only : Args := ⟨some "advanced", none, none⟩

/-- A two-point data file: JSON text `[1, 2]`. -/
def small_file : FileInput := .parsed (.arr [.num 1, .num 2])

/-- A one-point data file: JSON text `[5]`. -/
def one_file : FileInput := .parsed (.arr [.num 5])

theorem ratFloor_eq (x : ℚ) : ratFloor x = ⌊x⌋ := Rat.floor_def.symm

theorem le_rhe (x : ℚ) : ⌊x⌋ ≤ rhe x := by
  unfold rhe; simp only [ratFloor_eq]; split_ifs <;> omega

theorem rhe_le (x : ℚ) : rhe x ≤ ⌊x⌋ + 1 := by
  unfold rhe; simp only [ratFloor_eq]; split_ifs <;> omega

theorem rhe_intCast (k : ℤ) : rhe (k : ℚ) = k := by
  unfold rhe
  simp only [ratFloor_eq, Int.floor_intCast]
  have h : (k : ℚ) - k < 1/2 := by rw [sub_self]; norm_num
  rw [if_pos h]

theorem rhe_mono {x y : ℚ} (h : x ≤ y) : rhe x ≤ rhe y := by
  rcases lt_or_le ⌊x⌋ ⌊y⌋ with hlt | hle
  · calc rhe x ≤ ⌊x⌋ + 1 := rhe_le x
    _ ≤ ⌊y⌋ := by omega
    _ ≤ rhe y := le_rhe y
  · have hf : ⌊x⌋ = ⌊y⌋ := le_antisymm (Int.floor_le_floor h) hle
    have hfq : ((⌊x⌋ : ℚ)) = (⌊y⌋ : ℚ) := by exact_mod_cast hf
    unfold rhe
    simp only [ratFloor_eq]
    split_ifs <;> first | omega | linarith

theorem roundTo_mono (p : ℕ) {x y : ℚ} (h : x ≤ y) :
    roundTo p x ≤ roundTo p y := by
  unfold roundTo
  have hp : (0 : ℚ) < 10 ^ p := by positivity
  have h1 : x * 10 ^ p ≤ y * 10 ^ p := by nlinarith
  have h2 : ((rhe (x * 10 ^ p) : ℚ)) ≤ (rhe (y * 10 ^ p) : ℚ) := by
    exact_mod_cast rhe_mono h1
  exact div_le_div_of_nonneg_right h2 hp.le

theorem roundTo_int_div (p : ℕ) (k : ℤ) :
    roundTo p ((k : ℚ) / 10 ^ p) = (k : ℚ) / 10 ^ p := by
  unfold roundTo
  have hp : (10 : ℚ) ^ p ≠ 0 := by positivity
  rw [div_mul_cancel₀ _ hp, rhe_intCast]

theorem roundTo_intCast (p : ℕ) (k : ℤ) : roundTo p (k : ℚ) = k := by
  have hp : (10 : ℚ) ^ p ≠ 0 := by positivity
  have e : ((k * 10 ^ p : ℤ) : ℚ) / 10 ^ p = (k : ℚ) := by
    push_cast
    field_simp
  have h := roundTo_int_div p (k * 10 ^ p)
  rw [e] at h
  exact h

theorem roundTo_zero (p : ℕ) : roundTo p 0 = 0 := by
  simpa using roundTo_intCast p 0

theorem isDec_roundTo (p : ℕ) (x : ℚ) : IsDec p (roundTo p x) :=
  ⟨rhe (x * 10 ^ p), rfl⟩

theorem isDec_intCast (p : ℕ) (k : ℤ) : IsDec p (k : ℚ) := by
  refine ⟨k * 10 ^ p, ?_⟩
  have hp : (10 : ℚ) ^ p ≠ 0 := by positivity
  push_cast
  field_simp

theorem isDec_natCast (p n : ℕ) : IsDec p (n : ℚ) := by
  simpa using isDec_intCast p n

theorem IsDec.roundTo_eq {p : ℕ} {x : ℚ} (h : IsDec p x) : roundTo p x = x := by
  obtain ⟨k, rfl⟩ := h
  exact roundTo_int_div p k

theorem sortQ_length (l : List ℚ) : (sortQ l).length = l.length :=
  (List.perm_insertionSort _ l).length_eq

theorem sortQ_sorted (l : List ℚ) : (sortQ l).Sorted (· ≤ ·) :=
  List.sorted_insertionSort _ l

theorem sortQ_getD_mono (l : List ℚ) {i j : ℕ} (hij : i ≤ j)
    (hj : j < l.length) : (sortQ l).getD i 0 ≤ (sortQ l).getD j 0 := by
  have hj' : j < (sortQ l).length := by rw [sortQ_length]; exact hj
  have hi' : i < (sortQ l).length := lt_of_le_of_lt hij hj'
  rw [List.getD_eq_get _ _ hi', List.getD_eq_get _ _ hj']
  exact (sortQ_sorted l).rel_get_of_le (by exact hij)

/-- The source's index arithmetic is the nearest-rank selection index of
the specification: `floor(n * p / 100)` clamped to `[0, n - 1]`. -/
theorem percentileIndex_eq (n p : ℕ) :
    percentileIndex n p = min (n * p / 100) (n - 1) := by
  unfold percentileIndex
  generalize n * p = m
  have h : ((m : ℤ)) / 100 = ((m / 100 : ℕ) : ℤ) := (Int.ofNat_div m 100).symm
  rw [h]
  omega

theorem getVal_adv_p25 (precision : ℕ) (data : List ℚ)
    (h : 4 ≤ data.length) :
    getVal (calculate_advanced_stats precision data) "p25" =
      some (percentileValue precision data 25) := by
  rw [calculate_advanced_stats, if_neg (by omega)]
  rfl

theorem getVal_adv_p50 (precision : ℕ) (data : List ℚ)
    (h : 4 ≤ data.length) :
    getVal (calculate_advanced_stats precision data) "p50" =
      some (percentileValue precision data 50) := by
  rw [calculate_advanced_stats, if_neg (by omega)]
  rfl

theorem getVal_adv_p75 (precision : ℕ) (data : List ℚ)
    (h : 4 ≤ data.length) :
    getVal (calculate_advanced_stats precision data) "p75" =
      some (percentileValue precision data 75) := by
  rw [calculate_advanced_stats, if_neg (by omega)]
  rfl

theorem getVal_adv_p90 (precision : ℕ) (data : List ℚ)
    (h : 4 ≤ data.length) :
    getVal (calculate_advanced_stats precision data) "p90" =
      some (percentileValue precision data 90) := by
  rw [calculate_advanced_stats, if_neg (by omega)]
  rfl

theorem getVal_adv_p95 (precision : ℕ) (data : List ℚ)
    (h : 4 ≤ data.length) :
    getVal (calculate_advanced_stats precision data) "p95" =
      some (percentileValue precision data 95) := by
  rw [calculate_advanced_stats, if_neg (by omega)]
  rfl

theorem getVal_adv_iqr (precision : ℕ) (data : List ℚ)
    (h : 4 ≤ data.length) :
    getVal (calculate_advanced_stats precision data) "iqr" =
      some (iqrValue precision data) := by
  rw [calculate_advanced_stats, if_neg (by omega)]
  rfl

theorem getVal_adv_outlier_count (precision : ℕ) (data : List ℚ)
    (h : 4 ≤ data.length) :
    getVal (calculate_advanced_stats precision data) "outlier_count" =
      some ((outliersOf precision data).length : ℚ) := by
  rw [calculate_advanced_stats, if_neg (by omega)]
  rfl

theorem getVal_adv_outlier_percentage (precision : ℕ) (data : List ℚ)
    (h : 4 ≤ data.length) :
    getVal (calculate_advanced_stats precision data) "outlier_percentage" =
      some (roundTo precision
        (((outliersOf precision data).length : ℚ) / data.length * 100)) := by
  rw [calculate_advanced_stats, if_neg (by omega)]
  rfl

theorem percentileIndex_lt (n p : ℕ) (hn : 1 ≤ n) : percentileIndex n p < n := by
  rw [percentileIndex_eq]
  omega

theorem percentileIndex_mono (n : ℕ) {p q : ℕ} (h : p ≤ q) :
    percentileIndex n p ≤ percentileIndex n q := by
  rw [percentileIndex_eq, percentileIndex_eq]
  have h2 : n * p / 100 ≤ n * q / 100 :=
    Nat.div_le_div_right (Nat.mul_le_mul_left n h)
  omega

theorem percentileValue_mono (precision : ℕ) (data : List ℚ)
    (h4 : 4 ≤ data.length) {p q : ℕ} (hpq : p ≤ q) :
    percentileValue precision data p ≤ percentileValue precision data q := by
  unfold percentileValue
  apply roundTo_mono
  exact sortQ_getD_mono data (percentileIndex_mono _ hpq)
    (percentileIndex_lt _ _ (by omega))

/-- C1: for every dataset with count ≥ 4 and every p in
{25, 50, 75, 90, 95}, the advanced-statistics value reported as `"p<p>"`
is the element of the ascending-sorted data at index `⌊n·p/100⌋` clamped
to `[0, n−1]` (nearest-rank selection, no interpolation), rounded to the
configured precision; and the reported `"iqr"` is the reported `"p75"`
minus the reported `"p25"`, rounded. -/
theorem c1_percentile_selection (precision : ℕ) (data : List ℚ)
    (h : 4 ≤ data.length) :
    (getVal (calculate_advanced_stats precision data) "p25" =
      some (roundTo precision ((sortQ data).getD
        (min (data.length * 25 / 100) (data.length - 1)) 0))) ∧
    (getVal (calculate_advanced_stats precision data) "p50" =
      some (roundTo precision ((sortQ data).getD
        (min (data.length * 50 / 100) (data.length - 1)) 0))) ∧
    (getVal (calculate_advanced_stats precision data) "p75" =
      some (roundTo precision ((sortQ data).getD
        (min (data.length * 75 / 100) (data.length - 1)) 0))) ∧
    (getVal (calculate_advanced_stats precision data) "p90" =
      some (roundTo precision ((sortQ data).getD
        (min (data.length * 90 / 100) (data.length - 1)) 0))) ∧
    (getVal (calculate_advanced_stats precision data) "p95" =
      some (roundTo precision ((sortQ data).getD
        (min (data.length * 95 / 100) (data.length - 1)) 0))) ∧
    (∃ v25 v75,
      getVal (calculate_advanced_stats precision data) "p25" = some v25 ∧
      getVal (calculate_advanced_stats precision data) "p75" = some v75 ∧
      getVal (calculate_advanced_stats precision data) "iqr" =
        some (roundTo precision (v75 - v25))) := by
  refine ⟨?_, ?_, ?_, ?_, ?_, ?_⟩
  · rw [getVal_adv_p25 _ _ h, percentileValue, percentileIndex_eq]
  · rw [getVal_adv_p50 _ _ h, percentileValue, percentileIndex_eq]
  · rw [getVal_adv_p75 _ _ h, percentileValue, percentileIndex_eq]
  · rw [getVal_adv_p90 _ _ h, percentileValue, percentileIndex_eq]
  · rw [getVal_adv_p95 _ _ h, percentileValue, percentileIndex_eq]
  · exact ⟨_, _, getVal_adv_p25 _ _ h, getVal_adv_p75 _ _ h,
      by rw [getVal_adv_iqr _ _ h, iqrValue]⟩

/-- Witness for `c1_percentile_selection` at the dataset `[1, 2, 3, 4]`
with precision 2. -/
theorem c1_percentile_selection_witness :
    4 ≤ wdata.length ∧
    ((getVal (calculate_advanced_stats 2 wdata) "p25" =
      some (roundTo 2 ((sortQ wdata).getD
        (min (wdata.length * 25 / 100) (wdata.length - 1)) 0))) ∧
    (getVal (calculate_advanced_stats 2 wdata) "p50" =
      some (roundTo 2 ((sortQ wdata).getD
        (min (wdata.length * 50 / 100) (wdata.length - 1)) 0))) ∧
    (getVal (calculate_advanced_stats 2 wdata) "p75" =
      some (roundTo 2 ((sortQ wdata).getD
        (min (wdata.length * 75 / 100) (wdata.length - 1)) 0))) ∧
    (getVal (calculate_advanced_stats 2 wdata) "p90" =
      some (roundTo 2 ((sortQ wdata).getD
        (min (wdata.length * 90 / 100) (wdata.length - 1)) 0))) ∧
    (getVal (calculate_advanced_stats 2 wdata) "p95" =
      some (roundTo 2 ((sortQ wdata).getD
        (min (wdata.length * 95 / 100) (wdata.length - 1)) 0))) ∧
    (∃ v25 v75,
      getVal (calculate_advanced_stats 2 wdata) "p25" = some v25 ∧
      getVal (calculate_advanced_stats 2 wdata) "p75" = some v75 ∧
      getVal (calculate_advanced_stats 2 wdata) "iqr" =
        some (roundTo 2 (v75 - v25)))) :=
  ⟨by decide, c1_percentile_selection 2 wdata (by decide)⟩

/-- C7: for every dataset with fewer than four points (including the
empty dataset) the advanced-statistics computation returns the empty
mapping, so no percentile, IQR or outlier metric enters the report. -/
theorem c7_small_dataset_empty (precision : ℕ) (data : List ℚ)
    (h : data.length < 4) : calculate_advanced_stats precision data = [] := by
  rw [calculate_advanced_stats, if_pos h]

/-- Witness for `c7_small_dataset_empty` at the dataset `[1, 2, 3]`. -/
theorem c7_small_dataset_empty_witness :
    [(1 : ℚ), 2, 3].length < 4 ∧
    calculate_advanced_stats 2 [(1 : ℚ), 2, 3] = [] :=
  ⟨by decide, c7_small_dataset_empty 2 [(1 : ℚ), 2, 3] (by decide)⟩

/-- C9: for every dataset with count ≥ 4 the reported percentile values
are non-decreasing in p (p25 ≤ p50 ≤ p75 ≤ p90 ≤ p95) and the reported
IQR is non-negative: the clamped selection index is non-decreasing in p
over sorted data and rounding to a fixed precision preserves order. -/
theorem c9_percentiles_monotone (precision : ℕ) (data : List ℚ)
    (h : 4 ≤ data.length) :
    ∃ v25 v50 v75 v90 v95 viqr,
      getVal (calculate_advanced_stats precision data) "p25" = some v25 ∧
      getVal (calculate_advanced_stats precision data) "p50" = some v50 ∧
      getVal (calculate_advanced_stats precision data) "p75" = some v75 ∧
      getVal (calculate_advanced_stats precision data) "p90" = some v90 ∧
      getVal (calculate_advanced_stats precision data) "p95" = some v95 ∧
      getVal (calculate_advanced_stats precision data) "iqr" = some viqr ∧
      v25 ≤ v50 ∧ v50 ≤ v75 ∧ v75 ≤ v90 ∧ v90 ≤ v95 ∧ 0 ≤ viqr := by
  refine ⟨_, _, _, _, _, _, getVal_adv_p25 _ _ h, getVal_adv_p50 _ _ h,
    getVal_adv_p75 _ _ h, getVal_adv_p90 _ _ h, getVal_adv_p95 _ _ h,
    getVal_adv_iqr _ _ h, ?_, ?_, ?_, ?_, ?_⟩
  · exact percentileValue_mono precision data h (by omega)
  · exact percentileValue_mono precision data h (by omega)
  · exact percentileValue_mono precision data h (by omega)
  · exact percentileValue_mono precision data h (by omega)
  · have hle : percentileValue precision data 25 ≤
        percentileValue precision data 75 :=
      percentileValue_mono precision data h (by omega)
    have h0 : (0 : ℚ) ≤ percentileValue precision data 75 -
        percentileValue precision data 25 := by linarith
    have := roundTo_mono precision h0
    rw [roundTo_zero] at this
    exact this

/-- Witness for `c9_percentiles_monotone` at `[1, 2, 3, 4]`, precision 2. -/
theorem c9_percentiles_monotone_witness :
    4 ≤ wdata.length ∧
    (∃ v25 v50 v75 v90 v95 viqr,
      getVal (calculate_advanced_stats 2 wdata) "p25" = some v25 ∧
      getVal (calculate_advanced_stats 2 wdata) "p50" = some v50 ∧
      getVal (calculate_advanced_stats 2 wdata) "p75" = some v75 ∧
      getVal (calculate_advanced_stats 2 wdata) "p90" = some v90 ∧
      getVal (calculate_advanced_stats 2 wdata) "p95" = some v95 ∧
      getVal (calculate_advanced_stats 2 wdata) "iqr" = some viqr ∧
      v25 ≤ v50 ∧ v50 ≤ v75 ∧ v75 ≤ v90 ∧ v90 ≤ v95 ∧ 0 ≤ viqr) :=
  ⟨by decide, c9_percentiles_monotone 2 wdata (by decide)⟩

/-- C10: for every dataset with count ≥ 4 the reported outlier count is
between 0 and the dataset size, and the reported outlier percentage is
`round(count/n·100, precision)` and lies in `[0, 100]`. -/
theorem c10_outlier_bounds (precision : ℕ) (data : List ℚ)
    (h : 4 ≤ data.length) :
    ∃ c pct,
      getVal (calculate_advanced_stats precision data) "outlier_count" =
        some c ∧
      getVal (calculate_advanced_stats precision data) "outlier_percentage" =
        some pct ∧
      0 ≤ c ∧ c ≤ (data.length : ℚ) ∧
      pct = roundTo precision (c / data.length * 100) ∧
      0 ≤ pct ∧ pct ≤ 100 := by
  refine ⟨_, _, getVal_adv_outlier_count _ _ h,
    getVal_adv_outlier_percentage _ _ h, by positivity, ?_, rfl, ?_, ?_⟩
  · exact_mod_cast Nat.cast_le.mpr (List.length_filter_le _ data)
  · have h0 : (0 : ℚ) ≤
        ((outliersOf precision data).length : ℚ) / data.length * 100 := by
      positivity
    have := roundTo_mono precision h0
    rw [roundTo_zero] at this
    exact this
  · have hn : (0 : ℚ) < data.length := by
      have : (4 : ℚ) ≤ data.length := by exact_mod_cast h
      linarith
    have hc : ((outliersOf precision data).length : ℚ) ≤ data.length := by
      exact_mod_cast Nat.cast_le.mpr (List.length_filter_le _ data)
    have hle : ((outliersOf precision data).length : ℚ) / data.length * 100
        ≤ 100 := by
      have hdiv : ((outliersOf precision data).length : ℚ) / data.length
          ≤ 1 := (div_le_one hn).mpr hc
      nlinarith
    have h100 : roundTo precision (100 : ℚ) = 100 := by
      simpa using roundTo_intCast precision 100
    have := roundTo_mono precision hle
    rw [h100] at this
    exact this

/-- Witness for `c10_outlier_bounds` at `[1, 2, 3, 4]`, precision 2. -/
theorem c10_outlier_bounds_witness :
    4 ≤ wdata.length ∧
    (∃ c pct,
      getVal (calculate_advanced_stats 2 wdata) "outlier_count" = some c ∧
      getVal (calculate_advanced_stats 2 wdata) "outlier_percentage" =
        some pct ∧
      0 ≤ c ∧ c ≤ (wdata.length : ℚ) ∧
      pct = roundTo 2 (c / wdata.length * 100) ∧
      0 ≤ pct ∧ pct ≤ 100) :=
  ⟨by decide, c10_outlier_bounds 2 wdata (by decide)⟩

/-- C3: evaluation of `calculate_advanced_stats` at the dataset
`[1, 2, 3, 4, 5, 100, 200]` of the spec and of the repository's own test
`test_outlier_detection` (default precision 2).  The nearest-rank q3 is
100, so the IQR fences are `[2 − 147, 100 + 147] = [−145, 247]` and no
point of the dataset falls outside them: the code reports
`outlier_count = 0` and `outlier_percentage = 0.0`, contradicting the
claimed `outlier_count ≥ 1` and `outlier_percentage > 0` (which the
repository's test suite also asserts). -/
theorem c3_outlier_dataset_eval :
    getVal (calculate_advanced_stats 2 [1, 2, 3, 4, 5, 100, 200])
      "outlier_count" = some 0 ∧
    getVal (calculate_advanced_stats 2 [1, 2, 3, 4, 5, 100, 200])
      "outlier_percentage" = some 0 := by
  constructor <;> decide

theorem sqrtFloorQ_eq (m : ℚ) (hm : 0 ≤ m) :
    sqrtFloorQ m = ⌊Real.sqrt (m : ℝ)⌋₊ := by
  unfold sqrtFloorQ
  have hb0 : 0 < m.den := m.den_pos
  have hnum : ((m.num.toNat : ℤ)) = m.num :=
    Int.toNat_of_nonneg (Rat.num_nonneg.mpr hm)
  have hmr : (m : ℝ) = ((m.num.toNat * m.den : ℕ) : ℝ) / ((m.den : ℕ) : ℝ) ^ 2 := by
    rw [Rat.cast_def]
    push_cast [hnum]
    rw [sq]
    rw [mul_div_mul_right _ _ (by exact_mod_cast hb0.ne')]
    rw [show ((m.num.toNat : ℕ) : ℝ) = ((m.num : ℤ) : ℝ) from by
      exact_mod_cast congrArg (fun z : ℤ => (z : ℝ)) hnum]
  rw [hmr]
  rw [Real.sqrt_div' _ (by positivity)]
  rw [Real.sqrt_sq (by positivity : (0 : ℝ) ≤ ((m.den : ℕ) : ℝ))]
  rw [Nat.floor_div_nat, Real.nat_floor_real_sqrt_eq_nat_sqrt]

theorem rheSqrt_eq (m : ℚ) (hm : 0 ≤ m) :
    rheSqrt m = rheR (Real.sqrt (m : ℝ)) := by
  have hfl : ⌊Real.sqrt (m : ℝ)⌋ = ((sqrtFloorQ m : ℕ) : ℤ) := by
    rw [← Int.natCast_floor_eq_floor (Real.sqrt_nonneg _), sqrtFloorQ_eq m hm]
  have hflR : ((⌊Real.sqrt (m : ℝ)⌋ : ℤ) : ℝ) = ((sqrtFloorQ m : ℕ) : ℝ) := by
    exact_mod_cast hfl
  have hpos : (0 : ℝ) < ((sqrtFloorQ m : ℕ) : ℝ) + 1/2 := by positivity
  have hlt : Real.sqrt (m : ℝ) < ((sqrtFloorQ m : ℕ) : ℝ) + 1/2 ↔
      (m : ℝ) < (((sqrtFloorQ m : ℕ) : ℝ) + 1/2) ^ 2 := Real.sqrt_lt' hpos
  have hgt : ((sqrtFloorQ m : ℕ) : ℝ) + 1/2 < Real.sqrt (m : ℝ) ↔
      (((sqrtFloorQ m : ℕ) : ℝ) + 1/2) ^ 2 < (m : ℝ) := Real.lt_sqrt hpos.le
  have e : (((((sqrtFloorQ m : ℕ) : ℚ) + 1/2) ^ 2 : ℚ) : ℝ) =
      (((sqrtFloorQ m : ℕ) : ℝ) + 1/2) ^ 2 := by
    push_cast
    ring
  by_cases h1 : m < (((sqrtFloorQ m : ℕ) : ℚ) + 1/2) ^ 2
  · have h1R : (m : ℝ) < (((sqrtFloorQ m : ℕ) : ℝ) + 1/2) ^ 2 := by
      rw [← e]
      exact_mod_cast h1
    have hs : Real.sqrt (m : ℝ) - (⌊Real.sqrt (m : ℝ)⌋ : ℝ) < 1/2 := by
      have h2 := hlt.mpr h1R
      rw [hflR]
      linarith
    unfold rheSqrt rheR
    rw [if_pos h1, if_pos hs, hfl]
  · by_cases h2 : (((sqrtFloorQ m : ℕ) : ℚ) + 1/2) ^ 2 < m
    · have h2R : (((sqrtFloorQ m : ℕ) : ℝ) + 1/2) ^ 2 < (m : ℝ) := by
        rw [← e]
        exact_mod_cast h2
      have hgt2 := hgt.mpr h2R
      have hs2 : 1/2 < Real.sqrt (m : ℝ) - (⌊Real.sqrt (m : ℝ)⌋ : ℝ) := by
        rw [hflR]
        linarith
      have hs1 : ¬(Real.sqrt (m : ℝ) - (⌊Real.sqrt (m : ℝ)⌋ : ℝ) < 1/2) := by
        linarith
      unfold rheSqrt rheR
      rw [if_neg h1, if_pos h2, if_neg hs1, if_pos hs2, hfl]
    · have heq : m = (((sqrtFloorQ m : ℕ) : ℚ) + 1/2) ^ 2 :=
        le_antisymm (not_lt.mp h2) (not_lt.mp h1)
      have hsq : Real.sqrt (m : ℝ) = ((sqrtFloorQ m : ℕ) : ℝ) + 1/2 := by
        have hm2 : (m : ℝ) = (((sqrtFloorQ m : ℕ) : ℝ) + 1/2) ^ 2 := by
          rw [← e]
          exact_mod_cast heq
        rw [hm2, Real.sqrt_sq hpos.le]
      have hs1 : ¬(Real.sqrt (m : ℝ) - (⌊Real.sqrt (m : ℝ)⌋ : ℝ) < 1/2) := by
        rw [hflR, hsq]
        norm_num
      have hs2 : ¬(1/2 < Real.sqrt (m : ℝ) - (⌊Real.sqrt (m : ℝ)⌋ : ℝ)) := by
        rw [hflR, hsq]
        norm_num
      unfold rheSqrt rheR
      rw [if_neg h1, if_neg h2, if_neg hs1, if_neg hs2, hfl]

/-- `sqrtRound` really is the half-to-even rounding of the exact square
root `√v` to `p` decimal digits: `√v · 10^p = √(v · 10^(2p))`. -/
theorem sqrtRound_eq (p : ℕ) (v : ℚ) (hv : 0 ≤ v) :
    sqrtRound p v =
      ((rheR (Real.sqrt (v : ℝ) * 10 ^ p) : ℤ) : ℚ) / 10 ^ p := by
  unfold sqrtRound
  have h1 : rheSqrt (v * 10 ^ (2 * p)) =
      rheR (Real.sqrt ((v * 10 ^ (2 * p) : ℚ) : ℝ)) :=
    rheSqrt_eq _ (by positivity)
  have h2 : Real.sqrt ((v * 10 ^ (2 * p) : ℚ) : ℝ) =
      Real.sqrt (v : ℝ) * 10 ^ p := by
    push_cast
    rw [Real.sqrt_mul (by exact_mod_cast hv) _]
    rw [mul_comm 2 p, pow_mul]
    rw [Real.sqrt_sq (by positivity : (0 : ℝ) ≤ (10 : ℝ) ^ p)]
  rw [h1, h2]

theorem mean_singleton (x : ℚ) : mean [x] = x := by
  simp [mean]

theorem median_singleton (x : ℚ) : median [x] = x := by
  simp [median, sortQ, List.insertionSort, List.orderedInsert]

theorem listMin_singleton (x : ℚ) : listMin [x] = x := rfl

theorem listMax_singleton (x : ℚ) : listMax [x] = x := rfl

theorem sampleVariance_nonneg (data : List ℚ) (h : 1 < data.length) :
    0 ≤ sampleVariance data := by
  unfold sampleVariance
  apply div_nonneg
  · apply List.sum_nonneg
    intro y hy
    obtain ⟨z, _, rfl⟩ := List.mem_map.mp hy
    positivity
  · have h2 : (1 : ℚ) < data.length := by exact_mod_cast h
    linarith

/-- C4 (amended): for every nonempty dataset the basic-statistics report
contains count, mean, median, min and max, the last four rounded to the
configured precision; `std_dev` and `variance` are present exactly when
the count exceeds one, `variance` being the rounded sample variance with
Bessel's correction and `std_dev` the half-to-even rounding of the exact
square root of that sample variance (the standard-library semantics); in
particular for a single-element dataset `[x]` the reported mean, median,
min and max all equal `x` rounded to the configured precision — equal to
`x` itself only when `x` is representable at that precision — and the
`std_dev`/`variance` keys are absent.  In the 02-branching variant
`calculate_statistics`, by contrast, `std_dev` is always present (0.0
for a single element) and `variance` never is. -/
theorem c4_basic_stats (precision : ℕ) (data : List ℚ) (h : data ≠ []) :
    getVal (calculate_basic_stats precision data) "count" =
      some ((data.length : ℚ)) ∧
    getVal (calculate_basic_stats precision data) "mean" =
      some (roundTo precision (mean data)) ∧
    getVal (calculate_basic_stats precision data) "median" =
      some (roundTo precision (median data)) ∧
    getVal (calculate_basic_stats precision data) "min" =
      some (roundTo precision (listMin data)) ∧
    getVal (calculate_basic_stats precision data) "max" =
      some (roundTo precision (listMax data)) ∧
    (1 < data.length →
      getVal (calculate_basic_stats precision data) "variance" =
        some (roundTo precision (sampleVariance data)) ∧
      getVal (calculate_basic_stats precision data) "std_dev" =
        some (sqrtRound precision (sampleVariance data)) ∧
      sqrtRound precision (sampleVariance data) =
        ((rheR (Real.sqrt ((sampleVariance data : ℚ) : ℝ) *
          10 ^ precision) : ℤ) : ℚ) / 10 ^ precision) ∧
    (data.length ≤ 1 →
      getVal (calculate_basic_stats precision data) "variance" = none ∧
      getVal (calculate_basic_stats precision data) "std_dev" = none) ∧
    (∀ x, data = [x] →
      getVal (calculate_basic_stats precision data) "mean" =
        some (roundTo precision x) ∧
      getVal (calculate_basic_stats precision data) "median" =
        some (roundTo precision x) ∧
      getVal (calculate_basic_stats precision data) "min" =
        some (roundTo precision x) ∧
      getVal (calculate_basic_stats precision data) "max" =
        some (roundTo precision x)) ∧
    (∀ x : ℚ, getVal (calculate_statistics [x]) "std_dev" = some 0 ∧
      getVal (calculate_statistics [x]) "variance" = none) := by
  refine ⟨?_, ?_, ?_, ?_, ?_, ?_, ?_, ?_, ?_⟩
  · rw [calculate_basic_stats, if_neg h]
    rfl
  · rw [calculate_basic_stats, if_neg h]
    rfl
  · rw [calculate_basic_stats, if_neg h]
    rfl
  · rw [calculate_basic_stats, if_neg h]
    rfl
  · rw [calculate_basic_stats, if_neg h]
    rfl
  · intro h1
    rw [calculate_basic_stats, if_neg h, if_pos h1]
    exact ⟨rfl, rfl, sqrtRound_eq precision _ (sampleVariance_nonneg data h1)⟩
  · intro h1
    rw [calculate_basic_stats, if_neg h, if_neg (by omega)]
    exact ⟨rfl, rfl⟩
  · intro x hx
    subst hx
    refine ⟨?_, ?_, ?_, ?_⟩
    · rw [calculate_basic_stats, if_neg h, mean_singleton]
      rfl
    · rw [calculate_basic_stats, if_neg h, median_singleton]
      rfl
    · rw [calculate_basic_stats, if_neg h, listMin_singleton]
      rfl
    · rw [calculate_basic_stats, if_neg h, listMax_singleton]
      rfl
  · intro x
    constructor
    · simp [calculate_statistics, getVal]
    · simp [calculate_statistics, getVal]

/-- Witness for `c4_basic_stats` at the dataset `[1, 2]`, precision 2. -/
theorem c4_basic_stats_witness :
    wdata2 ≠ [] ∧
    (getVal (calculate_basic_stats 2 wdata2) "count" =
      some ((wdata2.length : ℚ)) ∧
    getVal (calculate_basic_stats 2 wdata2) "mean" =
      some (roundTo 2 (mean wdata2)) ∧
    getVal (calculate_basic_stats 2 wdata2) "median" =
      some (roundTo 2 (median wdata2)) ∧
    getVal (calculate_basic_stats 2 wdata2) "min" =
      some (roundTo 2 (listMin wdata2)) ∧
    getVal (calculate_basic_stats 2 wdata2) "max" =
      some (roundTo 2 (listMax wdata2)) ∧
    (1 < wdata2.length →
      getVal (calculate_basic_stats 2 wdata2) "variance" =
        some (roundTo 2 (sampleVariance wdata2)) ∧
      getVal (calculate_basic_stats 2 wdata2) "std_dev" =
        some (sqrtRound 2 (sampleVariance wdata2)) ∧
      sqrtRound 2 (sampleVariance wdata2) =
        ((rheR (Real.sqrt ((sampleVariance wdata2 : ℚ) : ℝ) *
          10 ^ 2) : ℤ) : ℚ) / 10 ^ 2) ∧
    (wdata2.length ≤ 1 →
      getVal (calculate_basic_stats 2 wdata2) "variance" = none ∧
      getVal (calculate_basic_stats 2 wdata2) "std_dev" = none) ∧
    (∀ x, wdata2 = [x] →
      getVal (calculate_basic_stats 2 wdata2) "mean" =
        some (roundTo 2 x) ∧
      getVal (calculate_basic_stats 2 wdata2) "median" =
        some (roundTo 2 x) ∧
      getVal (calculate_basic_stats 2 wdata2) "min" =
        some (roundTo 2 x) ∧
      getVal (calculate_basic_stats 2 wdata2) "max" =
        some (roundTo 2 x)) ∧
    (∀ x : ℚ, getVal (calculate_statistics [x]) "std_dev" = some 0 ∧
      getVal (calculate_statistics [x]) "variance" = none)) :=
  ⟨by decide, c4_basic_stats 2 wdata2 (by decide)⟩

/-- C4 counterexample: the reported location statistics are rounded to
the configured precision, so for the single-element dataset `[0.125]`
at the default precision 2 the reported mean is `0.12`, which differs
from the element `0.125`; moreover in the cited 02-branching variant
`calculate_statistics` the single-element report does contain a
`std_dev` key (with value 0.0) and never contains `variance`,
contradicting "the std_dev and variance keys are absent". -/
theorem c4_counterexample :
    getVal (calculate_basic_stats 2 [0.125]) "mean" = some 0.12 ∧
    (0.12 : ℚ) ≠ 0.125 ∧
    getVal (calculate_statistics [42]) "std_dev" = some 0 ∧
    getVal (calculate_statistics [42]) "variance" = none := by
  refine ⟨by decide, by decide, ?_, ?_⟩
  · simp [calculate_statistics, getVal]
  · simp [calculate_statistics, getVal]

theorem isDec_sqrtRound (p : ℕ) (v : ℚ) : IsDec p (sqrtRound p v) :=
  ⟨rheSqrt (v * 10 ^ (2 * p)), rfl⟩

theorem isDec_basic (precision : ℕ) (data : List ℚ) :
    ∀ kv ∈ calculate_basic_stats precision data, IsDec precision kv.2 := by
  intro kv hkv
  unfold calculate_basic_stats at hkv
  by_cases h : data = []
  · rw [if_pos h] at hkv
    simp at hkv
  · rw [if_neg h] at hkv
    rcases List.mem_append.mp hkv with h5 | htail
    · simp only [List.mem_cons, List.not_mem_nil, or_false] at h5
      rcases h5 with rfl | rfl | rfl | rfl | rfl
      · exact isDec_natCast _ _
      · exact isDec_roundTo _ _
      · exact isDec_roundTo _ _
      · exact isDec_roundTo _ _
      · exact isDec_roundTo _ _
    · by_cases h1 : 1 < data.length
      · rw [if_pos h1] at htail
        simp only [List.mem_cons, List.not_mem_nil, or_false] at htail
        rcases htail with rfl | rfl
        · exact isDec_sqrtRound _ _
        · exact isDec_roundTo _ _
      · rw [if_neg h1] at htail
        simp at htail

theorem isDec_advanced (precision : ℕ) (data : List ℚ) :
    ∀ kv ∈ calculate_advanced_stats precision data, IsDec precision kv.2 := by
  intro kv hkv
  unfold calculate_advanced_stats at hkv
  by_cases h : data.length < 4
  · rw [if_pos h] at hkv
    simp at hkv
  · rw [if_neg h] at hkv
    simp only [List.mem_cons, List.not_mem_nil, or_false] at hkv
    rcases hkv with rfl | rfl | rfl | rfl | rfl | rfl | rfl | rfl
    · exact isDec_roundTo _ _
    · exact isDec_roundTo _ _
    · exact isDec_roundTo _ _
    · exact isDec_roundTo _ _
    · exact isDec_roundTo _ _
    · exact isDec_roundTo _ _
    · exact isDec_natCast _ _
    · exact isDec_roundTo _ _

theorem writeJson_ok (p : ℕ) (r : List (String × ℚ))
    (h : ∀ kv ∈ r, IsDec p kv.2) :
    ∃ w, writeJson p r = some w ∧ readJson p w = r := by
  induction r with
  | nil => exact ⟨[], rfl, rfl⟩
  | cons kv rest ih =>
    obtain ⟨z, hz⟩ := h kv (List.mem_cons_self kv rest)
    obtain ⟨w, hw, hr⟩ := ih (fun kv2 h2 => h kv2 (List.mem_cons_of_mem kv h2))
    have hp : (10 : ℚ) ^ p ≠ 0 := by positivity
    have hden : kv.2 * 10 ^ p = (z : ℚ) := by
      rw [hz, div_mul_cancel₀ _ hp]
    have hwn : writeNum p kv.2 = some z := by
      unfold writeNum
      rw [hden]
      simp
    refine ⟨(kv.1, z) :: w, ?_, ?_⟩
    · simp only [writeJson]
      rw [hwn, hw]
      rfl
    · simp only [readJson] at hr
      simp only [readJson, List.map_cons]
      rw [hr]
      have hv : readNum p z = kv.2 := by
        unfold readNum
        exact hz.symm
      rw [hv]

/-- C2: evaluation of the configuration resolution at the failing input
"empty environment, command line `--mode advanced`, data file `[1, 2]`".
The code stores ONLY the override dict (`config or load_default_config`
replaces the whole configuration instead of merging per option), so the
very first `self.config["precision"]` access raises `KeyError` and the
run exits with code 1 — whereas under the claimed three-tier resolution
the remaining options take their defaults (precision 2, json, ...) and
the same run succeeds.  (The repository's own test
`test_analysis_modes`, which passes a partial dict, crashes the same
way.) -/
theorem c2_partial_cli_crashes :
    effective_config env0 args_mode_only =
      ⟨none, none, some "advanced", none, none⟩ ∧
    main_run env0 args_mode_only one_file = .error "precision" ∧
    main_exit env0 args_mode_only one_file = 1 ∧
    (config_overrides ⟨none, none, none⟩).isEmptyDict = true ∧
    effective_config env0 ⟨none, none, none⟩ =
      (load_default_config env0).toDict ∧
    spec_resolved_config env0 args_mode_only =
      ⟨2, "json", "advanced", true, "./output"⟩ ∧
    analyzeE ((spec_resolved_config env0 args_mode_only).toDict)
        one_file =
      .ok ([("count", 1), ("mean", 5), ("median", 5), ("min", 5),
            ("max", 5)],
        .wroteJson "./output/analysis_results.json"
          (some [("count", 100), ("mean", 500), ("median", 500),
                 ("min", 500), ("max", 500)])) := by
  refine ⟨by decide, by decide, by decide, by decide, by decide,
    by decide, by decide⟩

/-- C5 counterexample: in the cited docker-intro `save_results` an
unsupported configured output format (e.g. `OUTPUT_FORMAT=xml`) does
not abort the save step gracefully: `output_file` is never assigned, so
the trailing print raises `UnboundLocalError`, which nothing in that
variant catches — refuting "reports the unsupported format and aborts
without writing any output file, while the rest of the run is
unaffected" for that cited code. -/
theorem c5_counterexample :
    docker_save_results ⟨2, "xml", "standard", true, "./output"⟩
      [("count", 1)] = .fatal "UnboundLocalError" := rfl

/-- C5 (amended): in the github-actions variant an unsupported output
format makes `save_results` report it and return without writing a
file, and the analysis results and exit code are independent of the
configured format; in the docker-intro variant the same configuration
instead raises `UnboundLocalError`, crashing the run. -/
theorem c5_unsupported_format (c : Config) (input : FileInput)
    (h1 : c.output_format ≠ "json") (h2 : c.output_format ≠ "csv") :
    (analyze_run c input).2 =
      (if analyze_results c input = [] then SaveOutcome.noResults
       else SaveOutcome.unsupported c.output_format) ∧
    (∀ fmt, analyze_results
        ⟨c.precision, fmt, c.analysis_mode, c.include_outliers,
         c.output_dir⟩ input = analyze_results c input) ∧
    (∀ fmt, exit_code
        ⟨c.precision, fmt, c.analysis_mode, c.include_outliers,
         c.output_dir⟩ input = exit_code c input) ∧
    (∀ results, docker_save_results c results =
      .fatal "UnboundLocalError") := by
  refine ⟨?_, fun fmt => rfl, fun fmt => rfl, fun results => ?_⟩
  · unfold analyze_run save_results
    simp [h1, h2]
  · unfold docker_save_results
    simp [h1, h2]

/-- Witness for `c5_unsupported_format` with format `"xml"` and the
two-point data file. -/
theorem c5_unsupported_format_witness :
    (Config.mk 2 "xml" "standard" true "./output").output_format ≠ "json" ∧
    (Config.mk 2 "xml" "standard" true "./output").output_format ≠ "csv" ∧
    ((analyze_run (Config.mk 2 "xml" "standard" true "./output")
        small_file).2 =
      (if analyze_results (Config.mk 2 "xml" "standard" true "./output")
          small_file = [] then SaveOutcome.noResults
       else SaveOutcome.unsupported
        (Config.mk 2 "xml" "standard" true "./output").output_format) ∧
    (∀ fmt, analyze_results ⟨2, fmt, "standard", true, "./output"⟩
        small_file =
      analyze_results (Config.mk 2 "xml" "standard" true "./output")
        small_file) ∧
    (∀ fmt, exit_code ⟨2, fmt, "standard", true, "./output"⟩ small_file =
      exit_code (Config.mk 2 "xml" "standard" true "./output")
        small_file) ∧
    (∀ results, docker_save_results
        (Config.mk 2 "xml" "standard" true "./output") results =
      .fatal "UnboundLocalError")) :=
  ⟨by decide, by decide,
    c5_unsupported_format (Config.mk 2 "xml" "standard" true "./output")
      small_file (by decide) (by decide)⟩

/-- C6 counterexample: (i) the JSON array `[true]` loads as `[1.0]` —
the boolean entry is not numeric yet is NOT filtered out, because
Python's `bool` is a subtype of `int` and passes the `isinstance`
test; (ii) a missing input file falls back to the sample dataset with
NO console warning (the guard fails before the `try` block); (iii) the
cited docker-intro variant has no exception handler, so malformed file
contents raise a fatal `JSONDecodeError` instead of falling back. -/
theorem c6_counterexample :
    (load_dataset (.parsed (.arr [.jbool true]))).1 = [1] ∧
    load_dataset .missing = (sample_data, false) ∧
    docker_load_dataset .malformed = .fatal "json.JSONDecodeError" :=
  ⟨rfl, rfl, rfl⟩

/-- C6 (amended): loading never raises in the github-actions variant:
no data path or a missing file falls back to the hard-coded sample
dataset silently (no warning is printed in that case); malformed
contents fall back with the console warning; a parsed JSON array keeps
exactly its numeric and boolean entries — booleans convert to 1.0/0.0
since Python's `bool` is an `int` subtype — and silently drops all
other entries.  In the docker-intro variant there is no handler, so
malformed contents are fatal. -/
theorem c6_load_fallback :
    (∀ l : List JVal,
      load_dataset (.parsed (.arr l)) = (l.filterMap elemToNum, false)) ∧
    load_dataset .noPath = (sample_data, false) ∧
    load_dataset .missing = (sample_data, false) ∧
    load_dataset .malformed = (sample_data, true) ∧
    (∀ q, elemToNum (.num q) = some q) ∧
    (∀ b, elemToNum (.jbool b) = some (if b then 1 else 0)) ∧
    (∀ s, elemToNum (.jstr s) = none) ∧
    elemToNum .jnull = none ∧
    (∀ l, elemToNum (.arr l) = none) ∧
    (∀ kvs, elemToNum (.obj kvs) = none) ∧
    docker_load_dataset .malformed = .fatal "json.JSONDecodeError" :=
  ⟨fun _ => rfl, rfl, rfl, rfl, fun _ => rfl, fun _ => rfl, fun _ => rfl,
   rfl, fun _ => rfl, fun _ => rfl, rfl⟩

/-- C8: a results report produced by `analyze` (its values are integer
counts and numbers rounded to the configured precision, hence exact
decimal fractions) saved in JSON format is written entry for entry as
exact decimal literals, and reading the file back yields exactly the
in-memory report. -/
theorem c8_json_round_trip (c : Config) (input : FileInput)
    (hfmt : c.output_format = "json")
    (hne : analyze_results c input ≠ []) :
    ∃ w, save_results c (analyze_results c input) =
        SaveOutcome.wroteJson (c.output_dir ++ "/analysis_results.json")
          (some w) ∧
      readJson c.precision w = analyze_results c input := by
  have hdec : ∀ kv ∈ analyze_results c input, IsDec c.precision kv.2 := by
    intro kv hkv
    unfold analyze_results at hkv
    rcases List.mem_append.mp hkv with h | h
    · exact isDec_basic _ _ kv h
    · by_cases hm : c.analysis_mode = "detailed" ∨
          c.analysis_mode = "advanced"
      · rw [if_pos hm] at h
        exact isDec_advanced _ _ kv h
      · rw [if_neg hm] at h
        simp at h
  obtain ⟨w, hw, hr⟩ := writeJson_ok c.precision _ hdec
  refine ⟨w, ?_, hr⟩
  unfold save_results
  rw [if_neg hne, if_pos hfmt, hw]

/-- Witness for `c8_json_round_trip`: default JSON configuration and the
two-point data file `[1, 2]`. -/
theorem c8_json_round_trip_witness :
    (Config.mk 2 "json" "standard" true "./output").output_format =
      "json" ∧
    analyze_results (Config.mk 2 "json" "standard" true "./output")
      small_file ≠ [] ∧
    (∃ w, save_results (Config.mk 2 "json" "standard" true "./output")
        (analyze_results (Config.mk 2 "json" "standard" true "./output")
          small_file) =
        SaveOutcome.wroteJson
          ((Config.mk 2 "json" "standard" true "./output").output_dir ++
            "/analysis_results.json") (some w) ∧
      readJson (Config.mk 2 "json" "standard" true "./output").precision
          w =
        analyze_results (Config.mk 2 "json" "standard" true "./output")
          small_file) :=
  ⟨rfl, by decide,
    c8_json_round_trip (Config.mk 2 "json" "standard" true "./output")
      small_file rfl (by decide)⟩

end DA
